import Mathlib

/-!
Shallow embedding of the phosphor-fan-presence decision core: trust
evaluation from monitor/nonzero_speed_trust.hpp, the DefaultFloor action
from control/json/actions/default_floor.cpp over a Zone modelled from the
specification, and configuration discovery and loading from
json_config.hpp.
-/

namespace PhosphorFan

/-- A sensor as seen by the monitor trust subsystem: its numeric tach
input and whether the producing service currently owns it on the bus. -/
structure Sensor where
  input : Int
  owned : Bool
  deriving Repr, DecidableEq

/-- Embeds NonzeroSpeed.checkGroupTrust from
src/monitor/nonzero_speed_trust.hpp: the group is trusted exactly when
some sensor of the group reports a nonzero input. The lambda in the
source consults only getInput, never the owner state. -/
def checkGroupTrust (sensors : List Sensor) : Bool :=
  sensors.any (fun s => s.input != 0)

/-- The reading and owner state cached for one member of a group inside
a zone; this is the tuple shape DefaultFloor.run inspects through
getGroupServices (hasOwnerPos selects the owner flag). -/
structure SensorState where
  reading : Int
  hasOwner : Bool
  deriving Repr, DecidableEq

/-- A group addressed by an action: its identity key (the source keys
the zone maps by the address of the group object) and the current
member service states that a refresh provides. -/
structure Group where
  key : Nat
  members : List SensorState
  deriving Repr, DecidableEq

/-- Modelled from the spec: the Zone control state of section 3 of the
specification; src/control/json/zone.hpp is absent from the sampled
sources, so the fields and mutators follow the words of the spec. -/
structure Zone where
  floor : Nat
  ceiling : Nat
  target : Nat
  defaultFloor : Nat
  fullSpeed : Nat
  floorChangeAllowed : Nat → Bool
  services : Nat → List SensorState

/-- Modelled from the spec: the Zone ordering invariant
default_floor ≤ floor ≤ target ≤ ceiling ≤ full_speed. -/
def Zone.invariant (z : Zone) : Prop :=
  z.defaultFloor ≤ z.floor ∧ z.floor ≤ z.target ∧ z.target ≤ z.ceiling
    ∧ z.ceiling ≤ z.fullSpeed

instance (z : Zone) : Decidable z.invariant := by
  unfold Zone.invariant; infer_instance

/-- Modelled from the spec: setFloor stores the requested floor clamped
silently to the valid band between default_floor and target. -/
def Zone.setFloor (z : Zone) (v : Nat) : Zone :=
  { z with floor := max z.defaultFloor (min v z.target) }

/-- Modelled from the spec: setTarget stores the requested target
clamped silently to the valid band between floor and ceiling. -/
def Zone.setTarget (z : Zone) (v : Nat) : Zone :=
  { z with target := max z.floor (min v z.ceiling) }

/-- Modelled from the spec: setCeiling stores the requested ceiling
clamped silently to the valid band between target and full_speed. -/
def Zone.setCeiling (z : Zone) (v : Nat) : Zone :=
  { z with ceiling := max z.target (min v z.fullSpeed) }

/-- Modelled from the spec: setFloorChangeAllow records the gate flag
for the addressed group key. -/
def Zone.setFloorChangeAllow (z : Zone) (k : Nat) (b : Bool) : Zone :=
  { z with floorChangeAllowed := Function.update z.floorChangeAllowed k b }

/-- Modelled from the spec: setServices refreshes the cached snapshot
of the addressed group, replacing (never merging) the previous entry. -/
def Zone.setServices (z : Zone) (g : Group) : Zone :=
  { z with services := Function.update z.services g.key g.members }

/-- Modelled from the spec: getGroupServices reads the cached service
snapshot of the addressed group. -/
def Zone.getGroupServices (z : Zone) (g : Group) : List SensorState :=
  z.services g.key

/-- Modelled from the spec: getDefFloor reads the configured default
floor of the zone. -/
def Zone.getDefFloor (z : Zone) : Nat :=
  z.defaultFloor

namespace DefaultFloor

/-- The missing-owner test of DefaultFloor.run: after the service
refresh, whether any member of the group lacks an owner. -/
def missingOwner (zone : Zone) (group : Group) : Bool :=
  ((zone.setServices group).getGroupServices group).any (fun s => !s.hasOwner)

/-- Embeds DefaultFloor.run from
src/control/json/actions/default_floor.cpp: refresh the services of the
group, force the default floor when any member lacks an owner, and
unconditionally rewrite the floor-change gate of the group. -/
def run (zone : Zone) (group : Group) : Zone :=
  let zone1 := zone.setServices group
  let defFloor := (zone1.getGroupServices group).any (fun s => !s.hasOwner)
  let zone2 := if defFloor then zone1.setFloor zone1.getDefFloor else zone1
  zone2.setFloorChangeAllow group.key (!defFloor)

end DefaultFloor

/-- Runs a configured sequence of DefaultFloor actions in order against
the zone, the fold the dispatch of section 4.3 performs. -/
def runActions (zone : Zone) (groups : List Group) : Zone :=
  groups.foldl DefaultFloor.run zone

theorem missingOwner_eq (z : Zone) (g : Group) :
    DefaultFloor.missingOwner z g = g.members.any (fun s => !s.hasOwner) := by
  simp [DefaultFloor.missingOwner, Zone.setServices, Zone.getGroupServices]

theorem run_floor_eq (z : Zone) (g : Group) :
    (DefaultFloor.run z g).floor =
      if g.members.any (fun s => !s.hasOwner)
      then max z.defaultFloor (min z.defaultFloor z.target)
      else z.floor := by
  cases h : g.members.any (fun s => !s.hasOwner) <;>
    simp [DefaultFloor.run, Zone.setServices, Zone.getGroupServices,
      Zone.setFloor, Zone.getDefFloor, Zone.setFloorChangeAllow, h]

theorem run_gate_eq (z : Zone) (g : Group) :
    (DefaultFloor.run z g).floorChangeAllowed =
      Function.update z.floorChangeAllowed g.key
        (!(g.members.any (fun s => !s.hasOwner))) := by
  cases h : g.members.any (fun s => !s.hasOwner) <;>
    simp [DefaultFloor.run, Zone.setServices, Zone.getGroupServices,
      Zone.setFloor, Zone.getDefFloor, Zone.setFloorChangeAllow, h]

theorem run_services_eq (z : Zone) (g : Group) :
    (DefaultFloor.run z g).services =
      Function.update z.services g.key g.members := by
  cases h : g.members.any (fun s => !s.hasOwner) <;>
    simp [DefaultFloor.run, Zone.setServices, Zone.getGroupServices,
      Zone.setFloor, Zone.getDefFloor, Zone.setFloorChangeAllow, h]

theorem run_fixed_fields (z : Zone) (g : Group) :
    (DefaultFloor.run z g).ceiling = z.ceiling
    ∧ (DefaultFloor.run z g).target = z.target
    ∧ (DefaultFloor.run z g).defaultFloor = z.defaultFloor
    ∧ (DefaultFloor.run z g).fullSpeed = z.fullSpeed := by
  cases h : g.members.any (fun s => !s.hasOwner) <;>
    simp [DefaultFloor.run, Zone.setServices, Zone.getGroupServices,
      Zone.setFloor, Zone.getDefFloor, Zone.setFloorChangeAllow, h]

/-- C1: under the NonzeroSpeed strategy a group is trusted iff at least
one member reads nonzero; when every member reads zero the group is
untrusted, and the empty group is untrusted. -/
theorem c1_nonzero_trust (sensors : List Sensor) :
    (checkGroupTrust sensors = true ↔ ∃ s ∈ sensors, s.input ≠ 0)
    ∧ ((∀ s ∈ sensors, s.input = 0) → checkGroupTrust sensors = false)
    ∧ checkGroupTrust [] = false := by
  refine ⟨?_, ?_, rfl⟩
  · simp [checkGroupTrust]
  · intro h
    simp only [checkGroupTrust, List.any_eq_false]
    intro s hs
    simp [h s hs]

/-- Closed instance of c1_nonzero_trust at concrete groups. -/
theorem c1_nonzero_trust_witness :
    checkGroupTrust [⟨0, true⟩, ⟨3, true⟩] = true
    ∧ checkGroupTrust [⟨0, true⟩, ⟨0, false⟩] = false := by
  constructor
  · exact (c1_nonzero_trust [⟨0, true⟩, ⟨3, true⟩]).1.mpr
      ⟨⟨3, true⟩, by simp, by decide⟩
  · exact (c1_nonzero_trust [⟨0, true⟩, ⟨0, false⟩]).2.1 (by decide)

/-- C2: when some member of the group lacks an owner, DefaultFloor.run
sets the floor of the zone to its default floor and closes the
floor-change gate of the group. -/
theorem c2_default_floor_forced (z : Zone) (g : Group)
    (hz : z.invariant) (hm : ∃ s ∈ g.members, s.hasOwner = false) :
    (DefaultFloor.run z g).floor = z.defaultFloor
    ∧ (DefaultFloor.run z g).floorChangeAllowed g.key = false := by
  have hany : g.members.any (fun s => !s.hasOwner) = true := by
    rcases hm with ⟨s, hs, ho⟩
    exact List.any_eq_true.mpr ⟨s, hs, by simp [ho]⟩
  have hdt : z.defaultFloor ≤ z.target := le_trans hz.1 hz.2.1
  constructor
  · rw [run_floor_eq, hany]
    simp [min_eq_left hdt]
  · rw [run_gate_eq, hany]
    simp

/-- Closed instance of c2_default_floor_forced at a concrete zone and
group with an unowned member. -/
theorem c2_default_floor_forced_witness :
    (DefaultFloor.run
        ⟨50, 100, 60, 20, 100, fun _ => true, fun _ => []⟩
        ⟨0, [⟨7, false⟩]⟩).floor = 20
    ∧ (DefaultFloor.run
        ⟨50, 100, 60, 20, 100, fun _ => true, fun _ => []⟩
        ⟨0, [⟨7, false⟩]⟩).floorChangeAllowed 0 = false :=
  c2_default_floor_forced
    ⟨50, 100, 60, 20, 100, fun _ => true, fun _ => []⟩
    ⟨0, [⟨7, false⟩]⟩ (by decide) ⟨⟨7, false⟩, by simp, rfl⟩

/-- C3: when every member of the group has an owner, DefaultFloor.run
leaves the floor of the zone unchanged and opens the floor-change gate
of the group. -/
theorem c3_all_owned_floor_kept (z : Zone) (g : Group)
    (hm : ∀ s ∈ g.members, s.hasOwner = true) :
    (DefaultFloor.run z g).floor = z.floor
    ∧ (DefaultFloor.run z g).floorChangeAllowed g.key = true := by
  have hany : g.members.any (fun s => !s.hasOwner) = false := by
    refine List.any_eq_false.mpr ?_
    intro s hs
    simp [hm s hs]
  constructor
  · rw [run_floor_eq, hany]
    simp
  · rw [run_gate_eq, hany]
    simp

/-- Closed instance of c3_all_owned_floor_kept at a concrete zone and
group with all members owned. -/
theorem c3_all_owned_floor_kept_witness :
    (DefaultFloor.run
        ⟨50, 100, 60, 20, 100, fun _ => false, fun _ => []⟩
        ⟨0, [⟨0, true⟩, ⟨0, true⟩]⟩).floor = 50
    ∧ (DefaultFloor.run
        ⟨50, 100, 60, 20, 100, fun _ => false, fun _ => []⟩
        ⟨0, [⟨0, true⟩, ⟨0, true⟩]⟩).floorChangeAllowed 0 = true :=
  c3_all_owned_floor_kept
    ⟨50, 100, 60, 20, 100, fun _ => false, fun _ => []⟩
    ⟨0, [⟨0, true⟩, ⟨0, true⟩]⟩ (by decide)

/-- C5: for the empty group the missing-owner test is false, and
DefaultFloor.run leaves the floor unchanged and opens the floor-change
gate for the group. -/
theorem c5_empty_group (z : Zone) (k : Nat) :
    DefaultFloor.missingOwner z ⟨k, []⟩ = false
    ∧ (DefaultFloor.run z ⟨k, []⟩).floor = z.floor
    ∧ (DefaultFloor.run z ⟨k, []⟩).floorChangeAllowed k = true := by
  refine ⟨by rw [missingOwner_eq]; rfl, ?_, ?_⟩
  · rw [run_floor_eq]
    simp
  · rw [run_gate_eq]
    simp

/-- C6: DefaultFloor.run is idempotent: a second invocation with the
same group state produces the same zone state as the first. -/
theorem c6_run_idempotent (z : Zone) (g : Group) :
    DefaultFloor.run (DefaultFloor.run z g) g = DefaultFloor.run z g := by
  cases h : g.members.any (fun s => !s.hasOwner) <;>
    cases z <;>
      simp [DefaultFloor.run, Zone.setServices, Zone.getGroupServices,
        Zone.setFloor, Zone.getDefFloor, Zone.setFloorChangeAllow, h,
        Function.update_idem]

/-- C7: DefaultFloor.run leaves the gate entries and cached services of
every other group key, and the ceiling, target, default floor and full
speed of the zone, untouched. -/
theorem c7_frame (z : Zone) (g : Group) (k : Nat) (hk : k ≠ g.key) :
    (DefaultFloor.run z g).floorChangeAllowed k = z.floorChangeAllowed k
    ∧ (DefaultFloor.run z g).services k = z.services k
    ∧ (DefaultFloor.run z g).ceiling = z.ceiling
    ∧ (DefaultFloor.run z g).target = z.target
    ∧ (DefaultFloor.run z g).defaultFloor = z.defaultFloor
    ∧ (DefaultFloor.run z g).fullSpeed = z.fullSpeed := by
  refine ⟨?_, ?_, run_fixed_fields z g⟩
  · rw [run_gate_eq, Function.update_noteq hk]
  · rw [run_services_eq, Function.update_noteq hk]

/-- Closed instance of c7_frame at a concrete zone, group and foreign
key. -/
theorem c7_frame_witness :
    (DefaultFloor.run
        ⟨50, 100, 60, 20, 100, fun _ => true, fun _ => []⟩
        ⟨0, [⟨7, false⟩]⟩).floorChangeAllowed 1 = true
    ∧ (DefaultFloor.run
        ⟨50, 100, 60, 20, 100, fun _ => true, fun _ => []⟩
        ⟨0, [⟨7, false⟩]⟩).services 1 = []
    ∧ (DefaultFloor.run
        ⟨50, 100, 60, 20, 100, fun _ => true, fun _ => []⟩
        ⟨0, [⟨7, false⟩]⟩).ceiling = 100
    ∧ (DefaultFloor.run
        ⟨50, 100, 60, 20, 100, fun _ => true, fun _ => []⟩
        ⟨0, [⟨7, false⟩]⟩).target = 60
    ∧ (DefaultFloor.run
        ⟨50, 100, 60, 20, 100, fun _ => true, fun _ => []⟩
        ⟨0, [⟨7, false⟩]⟩).defaultFloor = 20
    ∧ (DefaultFloor.run
        ⟨50, 100, 60, 20, 100, fun _ => true, fun _ => []⟩
        ⟨0, [⟨7, false⟩]⟩).fullSpeed = 100 :=
  c7_frame ⟨50, 100, 60, 20, 100, fun _ => true, fun _ => []⟩
    ⟨0, [⟨7, false⟩]⟩ 1 (by decide)

theorem setFloor_invariant (z : Zone) (v : Nat) (hz : z.invariant) :
    (z.setFloor v).invariant := by
  obtain ⟨h1, h2, h3, h4⟩ := hz
  exact ⟨le_max_left _ _,
    max_le (le_trans h1 h2) (min_le_right _ _), h3, h4⟩

theorem setTarget_invariant (z : Zone) (v : Nat) (hz : z.invariant) :
    (z.setTarget v).invariant := by
  obtain ⟨h1, h2, h3, h4⟩ := hz
  exact ⟨h1, le_max_left _ _,
    max_le (le_trans h2 h3) (min_le_right _ _), h4⟩

theorem setCeiling_invariant (z : Zone) (v : Nat) (hz : z.invariant) :
    (z.setCeiling v).invariant := by
  obtain ⟨h1, h2, h3, h4⟩ := hz
  exact ⟨h1, h2, le_max_left _ _,
    max_le (le_trans h3 h4) (min_le_right _ _)⟩

theorem run_invariant (z : Zone) (g : Group) (hz : z.invariant) :
    (DefaultFloor.run z g).invariant := by
  obtain ⟨hc, ht, hd, hf⟩ := run_fixed_fields z g
  obtain ⟨h1, h2, h3, h4⟩ := hz
  have hdt : z.defaultFloor ≤ z.target := le_trans h1 h2
  unfold Zone.invariant
  rw [run_floor_eq, hc, ht, hd, hf]
  cases hmem : g.members.any (fun s => !s.hasOwner)
  · exact ⟨h1, h2, h3, h4⟩
  · simp only [if_pos]
    rw [min_eq_left hdt, max_self]
    exact ⟨le_refl _, hdt, h3, h4⟩

theorem runActions_invariant (groups : List Group) (z : Zone)
    (hz : z.invariant) : (runActions z groups).invariant := by
  induction groups generalizing z with
  | nil => exact hz
  | cons g gs ih => exact ih (DefaultFloor.run z g) (run_invariant z g hz)

/-- C4: starting from a zone satisfying the ordering invariant, every
clamping mutator preserves it, and it still holds after any sequence of
action invocations; the mutators clamp silently instead of rejecting. -/
theorem c4_invariant_preserved (z : Zone) (hz : z.invariant) :
    (∀ v, (z.setFloor v).invariant)
    ∧ (∀ v, (z.setTarget v).invariant)
    ∧ (∀ v, (z.setCeiling v).invariant)
    ∧ ∀ groups : List Group, (runActions z groups).invariant := by
  exact ⟨fun v => setFloor_invariant z v hz,
    fun v => setTarget_invariant z v hz,
    fun v => setCeiling_invariant z v hz,
    fun groups => runActions_invariant groups z hz⟩

/-- Closed instance of c4_invariant_preserved at a concrete zone,
clamping request and action sequence. -/
theorem c4_invariant_preserved_witness :
    ((⟨50, 100, 60, 20, 100, fun _ => true, fun _ => []⟩ :
        Zone).setFloor 500).invariant
    ∧ (runActions ⟨50, 100, 60, 20, 100, fun _ => true, fun _ => []⟩
        [⟨0, [⟨7, false⟩]⟩, ⟨1, [⟨3, true⟩]⟩]).invariant :=
  ⟨(c4_invariant_preserved
      ⟨50, 100, 60, 20, 100, fun _ => true, fun _ => []⟩ (by decide)).1 500,
    (c4_invariant_preserved
      ⟨50, 100, 60, 20, 100, fun _ => true, fun _ => []⟩
      (by decide)).2.2.2 [⟨0, [⟨7, false⟩]⟩, ⟨1, [⟨3, true⟩]⟩]⟩

/-- C10: the NonzeroSpeed verdict depends only on the numeric inputs of
the sensors, never on the owner flags; in particular a single nonzero
unowned sensor makes the whole group trusted. -/
theorem c10_trust_ignores_owned (s1 s2 : List Sensor) :
    (s1.map Sensor.input = s2.map Sensor.input →
      checkGroupTrust s1 = checkGroupTrust s2)
    ∧ ∀ v : Int, v ≠ 0 → ∀ rest : List Sensor,
        checkGroupTrust (⟨v, false⟩ :: rest) = true := by
  constructor
  · intro h
    have e : ∀ l : List Sensor,
        checkGroupTrust l = (l.map Sensor.input).any (fun v => v != 0) := by
      intro l
      induction l with
      | nil => rfl
      | cons a t ih =>
          show ((a.input != 0) || checkGroupTrust t)
            = ((a.input != 0) || (t.map Sensor.input).any (fun v => v != 0))
          rw [ih]
    rw [e s1, e s2, h]
  · intro v hv rest
    simp [checkGroupTrust, hv]

/-- Closed instance of c10_trust_ignores_owned: flipping the owner flag
of a nonzero sensor leaves the verdict trusted. -/
theorem c10_trust_ignores_owned_witness :
    checkGroupTrust [⟨4, true⟩, ⟨0, true⟩]
      = checkGroupTrust [⟨4, false⟩, ⟨0, false⟩]
    ∧ checkGroupTrust [⟨9, false⟩] = true :=
  ⟨(c10_trust_ignores_owned [⟨4, true⟩, ⟨0, true⟩]
      [⟨4, false⟩, ⟨0, false⟩]).1 (by decide),
    (c10_trust_ignores_owned [] []).2 9 (by decide) []⟩

/-- The error thrown while reading a property of a compatible object
over the bus; swallowed by getConfFile. -/
inductive DBusError
  | unavailable
  deriving Repr, DecidableEq

/-- The runtime_error exceptions thrown by json_config.hpp. -/
inductive ConfigError
  | runtimeError (msg : String)
  deriving Repr, DecidableEq

/-- The override configuration location of src/json_config.hpp. -/
def confOverridePath : String := "/etc/phosphor-fan-presence"

/-- The base configuration location of src/json_config.hpp. -/
def confBasePath : String := "/usr/share/phosphor-fan-presence"

/-- Joins two path components as the slash operator of the filesystem
library does. -/
def pjoin (a b : String) : String := a ++ "/" ++ b

/-- Embeds JsonConfig.load from src/json_config.hpp over filesystem and
parser oracles: the parsed configuration when the path is nonempty, the
file exists and parsing succeeds, a runtime_error in every other case. -/
def JsonConfig.load {J : Type} (fsFound : String → Bool)
    (readFile : String → String) (parse : String → Option J)
    (confFile : String) : Except ConfigError J :=
  if !confFile.isEmpty && fsFound confFile then
    match parse (readFile confFile) with
    | some j => Except.ok j
    | none => Except.error (ConfigError.runtimeError
        "Failed to parse JSON config file")
  else
    Except.error (ConfigError.runtimeError
      "Unable to open JSON config file")

/-- The location of a configuration file relative to the base path for
one compatible-interface entry. -/
def compatEntryFile (appName fileName entry : String) : String :=
  pjoin (pjoin (pjoin confBasePath appName) entry) fileName

/-- The outcome of one compatible object inside the search loop of
getConfFile: none when the property read throws a DBusError or no entry
of the property names an existing file, otherwise the first entry whose
relative location holds an existing file. -/
def compatLookup (fsFound : String → Bool) (appName fileName : String) :
    Except DBusError (List String) → Option String
  | Except.error _ => none
  | Except.ok entries =>
      (entries.find? (fun entry =>
        fsFound (compatEntryFile appName fileName entry))).map
        (compatEntryFile appName fileName)

/-- The search of getConfFile across the objects implementing the
compatible interface, in order, keeping the first hit. -/
def findCompatFile (fsFound : String → Bool)
    (objects : List (Except DBusError (List String)))
    (appName fileName : String) : Option String :=
  objects.findSome? (compatLookup fsFound appName fileName)

/-- Embeds JsonConfig.getConfFile from src/json_config.hpp: the
override location wins outright, then the first existing
compatible-interface location, then the default base location; when
nothing exists the call throws unless the file is optional, in which
case the returned path is cleared to empty. -/
def JsonConfig.getConfFile (fsFound : String → Bool)
    (objects : List (Except DBusError (List String)))
    (appName fileName : String) (isOptional : Bool) :
    Except ConfigError String :=
  let overrideFile := pjoin (pjoin confOverridePath appName) fileName
  if fsFound overrideFile then
    Except.ok overrideFile
  else
    let defaultFile := pjoin (pjoin confBasePath appName) fileName
    let confFile :=
      (findCompatFile fsFound objects appName fileName).getD defaultFile
    if fsFound confFile then
      Except.ok confFile
    else if !isOptional then
      Except.error (ConfigError.runtimeError "No JSON config file found")
    else
      Except.ok ""

theorem compatLookup_found (fsFound : String → Bool)
    (appName fileName : String) (obj : Except DBusError (List String))
    (p : String) (h : compatLookup fsFound appName fileName obj = some p) :
    fsFound p = true := by
  cases obj with
  | error e => simp [compatLookup] at h
  | ok entries =>
      simp only [compatLookup, Option.map_eq_some'] at h
      obtain ⟨entry, he, rfl⟩ := h
      simpa using List.find?_some he

theorem findCompatFile_found (fsFound : String → Bool)
    (objects : List (Except DBusError (List String)))
    (appName fileName p : String)
    (h : findCompatFile fsFound objects appName fileName = some p) :
    fsFound p = true := by
  obtain ⟨obj, _, hobj⟩ := List.exists_of_findSome?_eq_some h
  exact compatLookup_found fsFound appName fileName obj p hobj

theorem findCompatFile_skip_error (fsFound : String → Bool)
    (pre post : List (Except DBusError (List String))) (e : DBusError)
    (appName fileName : String) :
    findCompatFile fsFound (pre ++ Except.error e :: post) appName fileName
      = findCompatFile fsFound (pre ++ post) appName fileName := by
  unfold findCompatFile
  rw [List.findSome?_append, List.findSome?_append, List.findSome?_cons]
  rfl

/-- C8: configuration loading is fatal on error: load returns the
parsed object exactly when the path is nonempty, the file exists and
parsing succeeds, and throws a runtime_error in every other case. -/
theorem c8_load_fatal {J : Type} (fsFound : String → Bool)
    (readFile : String → String) (parse : String → Option J)
    (confFile : String) :
    (∀ j, confFile.isEmpty = false → fsFound confFile = true →
      parse (readFile confFile) = some j →
      JsonConfig.load fsFound readFile parse confFile = Except.ok j)
    ∧ (confFile.isEmpty = true ∨ fsFound confFile = false
        ∨ parse (readFile confFile) = none →
      ∃ msg, JsonConfig.load fsFound readFile parse confFile
        = Except.error (ConfigError.runtimeError msg)) := by
  constructor
  · intro j he hf hp
    simp [JsonConfig.load, he, hf, hp]
  · intro h
    rcases h with he | hf | hp
    · exact ⟨"Unable to open JSON config file", by simp [JsonConfig.load, he]⟩
    · exact ⟨"Unable to open JSON config file", by simp [JsonConfig.load, hf]⟩
    · by_cases hg : (!confFile.isEmpty && fsFound confFile) = true
      · exact ⟨"Failed to parse JSON config file",
          by simp [JsonConfig.load, hg, hp]⟩
      · exact ⟨"Unable to open JSON config file",
          by simp [JsonConfig.load, hg]⟩

/-- Closed instance of c8_load_fatal: a parse success loads and a
missing file throws. -/
theorem c8_load_fatal_witness :
    JsonConfig.load (fun _ => true) (fun _ => "5") (fun s => some s) "a"
      = Except.ok "5"
    ∧ ∃ msg, JsonConfig.load (fun _ => false) (fun _ => "5")
        (fun s => some s) "a"
      = Except.error (ConfigError.runtimeError msg) :=
  ⟨(c8_load_fatal (fun _ => true) (fun _ => "5") (fun s => some s) "a").1
      "5" (by decide) rfl rfl,
    (c8_load_fatal (fun _ => false) (fun _ => "5") (fun s => some s) "a").2
      (Or.inr (Or.inl rfl))⟩

/-- C9: getConfFile resolves by fixed priority: the override location
immediately and independently of the bus; else the first existing
compatible-interface location; else the default base location; else a
throw when mandatory and an empty path when optional; and an object
whose property read fails with a DBusError is skipped. -/
theorem c9_getconffile_priority (fsFound : String → Bool)
    (objects : List (Except DBusError (List String)))
    (appName fileName : String) (isOptional : Bool) :
    (fsFound (pjoin (pjoin confOverridePath appName) fileName) = true →
      JsonConfig.getConfFile fsFound objects appName fileName isOptional
        = Except.ok (pjoin (pjoin confOverridePath appName) fileName))
    ∧ (fsFound (pjoin (pjoin confOverridePath appName) fileName) = false →
        ∀ p, findCompatFile fsFound objects appName fileName = some p →
        JsonConfig.getConfFile fsFound objects appName fileName isOptional
          = Except.ok p)
    ∧ (fsFound (pjoin (pjoin confOverridePath appName) fileName) = false →
        findCompatFile fsFound objects appName fileName = none →
        fsFound (pjoin (pjoin confBasePath appName) fileName) = true →
        JsonConfig.getConfFile fsFound objects appName fileName isOptional
          = Except.ok (pjoin (pjoin confBasePath appName) fileName))
    ∧ (fsFound (pjoin (pjoin confOverridePath appName) fileName) = false →
        findCompatFile fsFound objects appName fileName = none →
        fsFound (pjoin (pjoin confBasePath appName) fileName) = false →
        (isOptional = false →
          ∃ msg, JsonConfig.getConfFile fsFound objects appName fileName
            isOptional = Except.error (ConfigError.runtimeError msg))
        ∧ (isOptional = true →
          JsonConfig.getConfFile fsFound objects appName fileName isOptional
            = Except.ok ""))
    ∧ ∀ pre post e, pre ++ Except.error e :: post = objects →
        JsonConfig.getConfFile fsFound objects appName fileName isOptional
          = JsonConfig.getConfFile fsFound (pre ++ post) appName fileName
              isOptional := by
  refine ⟨?_, ?_, ?_, ?_, ?_⟩
  · intro ho
    simp [JsonConfig.getConfFile, ho]
  · intro ho p hp
    have hfp : fsFound p = true :=
      findCompatFile_found fsFound objects appName fileName p hp
    simp [JsonConfig.getConfFile, ho, hp, hfp]
  · intro ho hn hd
    simp [JsonConfig.getConfFile, ho, hn, hd]
  · intro ho hn hd
    constructor
    · intro hopt
      exact ⟨"No JSON config file found",
        by simp [JsonConfig.getConfFile, ho, hn, hd, hopt]⟩
    · intro hopt
      simp [JsonConfig.getConfFile, ho, hn, hd, hopt]
  · intro pre post e hobs
    rw [← hobs]
    unfold JsonConfig.getConfFile
    rw [findCompatFile_skip_error]

/-- Closed instance of c9_getconffile_priority: the override wins when
present, and with nothing on disk an optional lookup yields the empty
path while a DBusError object is skipped. -/
theorem c9_getconffile_priority_witness :
    JsonConfig.getConfFile (fun _ => true) [] "app" "f.json" false
      = Except.ok (pjoin (pjoin confOverridePath "app") "f.json")
    ∧ JsonConfig.getConfFile (fun _ => false)
        [Except.error DBusError.unavailable] "app" "f.json" true
      = Except.ok "" :=
  ⟨(c9_getconffile_priority (fun _ => true) [] "app" "f.json" false).1 rfl,
    ((c9_getconffile_priority (fun _ => false)
        [Except.error DBusError.unavailable] "app" "f.json" true).2.2.2.1
        rfl rfl rfl).2 rfl⟩

end PhosphorFan
